import Mathlib

/-!
Verification development for the advent-of-code-2024 dashboard
(`src/main.rs`, `src/taskfinder.rs`, `src/taskpreview.rs`).

The dashboard is a terminal task runner: it scans the working directory for
`day<digits>` subdirectories containing `task1`/`task2` child directories,
shows them in a tree, and on enter runs the selected task as a subprocess,
streaming its stdout into a scrollable preview pane.

Shallow embedding conventions:
- Rust `usize` counters are modelled as `Nat` (the program only ever adds
  small steps and saturates at 0, so no wrap-around is reachable).
- Filesystem scanning is modelled by a list of `DirEntry` values, one per
  entry of `std::fs::read_dir(".")` in the order the OS yields them, each
  recording the entry name, whether it is a directory, and whether its
  `task1` / `task2` children exist as directories.
- Subprocess execution is modelled by an environment value describing what
  the outside world does: whether `spawn` succeeds, the captured stdout,
  the outcome of reading stdout and of `wait()`, and the exit code of the
  child.  Note that the exit code field is deliberately unused by the
  embedded code, because `command.wait()` in the source returns `Ok(status)`
  for any exit status; only OS-level failures surface as `Err`.
- The Rust regex `^day\d+$` is modelled with ASCII digits (`Char.isDigit`);
  the repository only ever uses ASCII directory names.
- String matching is done on `String.data` character lists so that all
  definitions evaluate inside the kernel.
-/

/-- Decides whether the first character list is a prefix of the second.
Used to model Rust `str::contains` via a substring scan. -/
def isPrefixL : List Char → List Char → Bool
  | [], _ => true
  | _ :: _, [] => false
  | p :: ps, c :: cs => p == c && isPrefixL ps cs

/-- Decides whether `pat` occurs as a contiguous substring of `l`. -/
def subStrL : List Char → List Char → Bool
  | pat, [] => isPrefixL pat []
  | pat, c :: cs => isPrefixL pat (c :: cs) || subStrL pat cs

/-- Model of Rust `s.contains(pat)` for string slices. -/
def containsStr (s pat : String) : Bool := subStrL pat.data s.data

/-- Model of the anchored regex `^day\d+$` from `App::load_file_tree`
(main.rs line 148) and `TaskFinder::load_file_tree` (taskfinder.rs line 26):
the literal prefix `day` followed by one or more digits and nothing else. -/
def matchesDayL : List Char → Bool
  | c1 :: c2 :: c3 :: rest =>
      c1 == 'd' && c2 == 'a' && c3 == 'y' && !rest.isEmpty && rest.all Char.isDigit
  | _ => false

/-- The `^day\d+$` regex test on a string. -/
def matchesDayName (s : String) : Bool := matchesDayL s.data

/-- Numeric value of a digit character. -/
def digitVal (c : Char) : Nat := c.toNat - '0'.toNat

/-- Decimal parse of a digit list, modelling `str::parse::<u32>` on the
strings it succeeds on (day numbers; overflow of `u32` is out of scope). -/
def parseNatL (l : List Char) : Nat := l.foldl (fun n c => n * 10 + digitVal c) 0

/-- Model of `trim_start_matches("day")`: repeatedly strip a leading `day`. -/
def trimDayL : List Char → List Char
  | 'd' :: 'a' :: 'y' :: rest => trimDayL rest
  | l => l

/-- The sort key of `TaskFinder::load_file_tree` (taskfinder.rs lines 49-50):
`name.trim_start_matches("day").parse::<u32>()`. -/
def dayNum (s : String) : Nat := parseNatL (trimDayL s.data)

/-- Model of `Vec::join("/")` as used on the selected identifier path
(main.rs line 363). -/
def joinPath : List String → String
  | [] => ""
  | [x] => x
  | x :: xs => x ++ "/" ++ joinPath xs

/-- Number of line-break characters in a string. -/
def newlineCount (s : String) : Nat := s.data.countP (fun c => c == '\n')

/-- Model of Rust `str::lines().count()` (taskpreview.rs line 73): the text is
split at each line break, and a final fragment not terminated by a line break
still counts as a line.  Carriage returns are stripped by `lines()` but do not
affect the count. -/
def countLines (s : String) : Nat :=
  newlineCount s + (if s.data ≠ [] ∧ s.data.getLast? ≠ some '\n' then 1 else 0)

/-- A leaf tree node (`TreeItem` built for `task1`/`task2`), carrying the
display text and the identifier passed to `TreeItem::new`. -/
structure TaskItem where
  text : String
  identifier : String
deriving DecidableEq, Repr

/-- A day-level tree node (`TreeItem` built for a `day<digits>` directory)
with its task children. -/
structure DayItem where
  text : String
  identifier : String
  children : List TaskItem
deriving DecidableEq, Repr

/-- One entry yielded by scanning the working directory: its name, whether it
is a directory, and whether its `task1` / `task2` children are directories. -/
structure DirEntry where
  name : String
  isDir : Bool
  hasTask1 : Bool
  hasTask2 : Bool
deriving DecidableEq, Repr

/-- Model of ratatui `ScrollbarState`: content length and thumb position,
rebuilt by the source as `ScrollbarState::new(total).position(offset)`. -/
structure ScrollbarState where
  content_length : Nat
  position : Nat
deriving DecidableEq, Repr

/-- The preview pane state (struct `TaskPreview` in main.rs lines 93-98). -/
structure TaskPreview where
  file_preview : String
  scroll_offset : Nat
  total_lines : Nat
  scrollbar_state : ScrollbarState
deriving DecidableEq, Repr

/-- Observable part of the tui-tree-widget `TreeState`: the set of opened
identifier paths and the selected identifier path. -/
structure TreeState where
  opened : List (List String)
  selected : List String
deriving DecidableEq, Repr

/-- The task list component (struct `TaskFinder` in main.rs lines 51-54). -/
structure TaskFinder where
  file_tree : List DayItem
  file_tree_state : TreeState
deriving DecidableEq, Repr

/-- The whole application state (struct `App` in main.rs lines 131-135). -/
structure App where
  task_finder : TaskFinder
  task_preview : TaskPreview
  error_message : Option String
deriving DecidableEq, Repr

/-- Model of `TaskPreview::new` (main.rs lines 101-108). -/
def TaskPreview.new : TaskPreview :=
  { file_preview := "Press Enter to execute a task"
    scroll_offset := 0
    total_lines := 0
    scrollbar_state := { content_length := 0, position := 0 } }

/-- Model of `App::add_task_items` (main.rs lines 176-192, identical in
taskfinder.rs lines 67-83): probe for `task1` then `task2` child directories
and add a leaf node for each that exists. -/
def add_task_items (e : DirEntry) : List TaskItem :=
  (if e.hasTask1 then [{ text := "task1", identifier := "task1" }] else []) ++
  (if e.hasTask2 then [{ text := "task2", identifier := "task2" }] else [])

/-- The day node built for a matching directory entry:
`TreeItem::new(dir_name, dir_name, vec![])` followed by `add_task_items`. -/
def dayItemFor (e : DirEntry) : DayItem :=
  { text := e.name, identifier := e.name, children := add_task_items e }

/-- The loop body of `App::load_file_tree` (main.rs lines 154-171): push a day
node if the entry is a directory whose name matches `^day\d+$`, else skip. -/
def loadStep (items : List DayItem) (e : DirEntry) : List DayItem :=
  if e.isDir && matchesDayName e.name then items ++ [dayItemFor e] else items

/-- Model of `App::load_file_tree` (main.rs lines 146-174): iterate over the
directory entries in scan order and push a day node for every entry that is a
directory whose name matches `^day\d+$`.  No sorting is performed. -/
def App.load_file_tree (entries : List DirEntry) : List DayItem :=
  entries.foldl loadStep []

/-- Model of `TaskFinder::load_file_tree` (taskfinder.rs lines 24-65): filter
the scan to matching directories, sort them numerically by the digit group of
the name (a stable sort by `trim_start_matches("day").parse::<u32>()`), then
build the day nodes. -/
def TaskFinder.load_file_tree (entries : List DirEntry) : List DayItem :=
  let filtered := entries.filter (fun e => e.isDir && matchesDayName e.name)
  let sorted := filtered.mergeSort (fun a b => dayNum a.name ≤ dayNum b.name)
  sorted.map dayItemFor

/-- What the environment does when the dashboard runs a task with
`cargo run --quiet` (main.rs lines 202-222): whether `spawn` succeeds, the
lines yielded by `next_line` on the captured stdout, an optional read error
ending the line loop, an optional OS error from `wait()`, and the exit code
of the child process.  The exit code is recorded here to express that the
source never inspects it: `wait()` yields `Ok(status)` for any exit code. -/
structure ExecEnv where
  spawnOk : Bool
  lines : List String
  readErr : Option String
  waitErr : Option String
  exitCode : Nat
deriving DecidableEq, Repr

/-- Result of a `run_task` call: normal return, an error return (the `?`
propagation or the `Err` branch), or a panic from `.expect`. -/
inductive RunOutcome where
  | ok
  | err (msg : String)
  | panicked
deriving DecidableEq, Repr

/-- One captured stdout line appended to the preview (main.rs lines 214-220):
push the line and a line break, bump the line count, rebuild the scrollbar. -/
def appendLine (p : TaskPreview) (line : String) : TaskPreview :=
  { p with
    file_preview := p.file_preview ++ line ++ "\n"
    total_lines := p.total_lines + 1
    scrollbar_state :=
      { content_length := p.total_lines + 1, position := p.scroll_offset } }

/-- Model of `App::run_task` (main.rs lines 194-231).  The preview text,
scroll offset and line count are cleared first; a spawn failure panics via
`.expect("Failed to start task")`; each stdout line is appended; a read error
propagates via `?` without touching `error_message`; `wait()` yields `Ok` for
any exit status (so a non-zero exit is treated as success) and only an OS
error from `wait()` sets `error_message` inside `run_task`. -/
def App.run_task (env : ExecEnv) (app : App) : App × RunOutcome :=
  let p0 := { app.task_preview with
    file_preview := "", scroll_offset := 0, total_lines := 0 }
  if env.spawnOk then
    let p1 := env.lines.foldl appendLine p0
    match env.readErr with
    | some e => ({ app with task_preview := p1 }, .err e)
    | none =>
      match env.waitErr with
      | some e =>
          ({ app with
              task_preview := p1,
              error_message := some ("Failed to run task: " ++ e) }, .err e)
      | none => ({ app with task_preview := p1 }, .ok)
  else
    ({ app with task_preview := p0 }, .panicked)

/-- Environment for the variant executor in taskpreview.rs, which reads the
whole stdout to a buffer and decodes it permissively: `text` is the decoded
`String::from_utf8_lossy` result. -/
structure RawExecEnv where
  spawnOk : Bool
  text : String
  readErr : Option String
  waitErr : Option String
  exitCode : Nat
deriving DecidableEq, Repr

/-- Model of `TaskPreview::run_task` (taskpreview.rs lines 51-83): clear the
preview, spawn (panicking on failure), read stdout to completion (a read
error propagates via `?`), push the decoded text verbatim, set `total_lines`
to `lines().count()`, rebuild the scrollbar, then `wait()`. -/
def TaskPreview.run_task (env : RawExecEnv) (p : TaskPreview) :
    TaskPreview × RunOutcome :=
  let p0 := { p with file_preview := "", scroll_offset := 0, total_lines := 0 }
  if env.spawnOk then
    match env.readErr with
    | some e => (p0, .err e)
    | none =>
      let lines := countLines env.text
      let p1 := { p0 with
        file_preview := p0.file_preview ++ env.text
        total_lines := lines
        scrollbar_state := { content_length := lines, position := p0.scroll_offset } }
      match env.waitErr with
      | some e => (p1, .err e)
      | none => (p1, .ok)
  else
    (p0, .panicked)

/-- Model of `PageUp` handling (main.rs lines 370-379): step the offset down
by 10, saturating at 0, and rebuild the scrollbar. -/
def TaskPreview.pageUp (p : TaskPreview) : TaskPreview :=
  let off := if p.scroll_offset > 10 then p.scroll_offset - 10 else 0
  { p with scroll_offset := off
           scrollbar_state := { content_length := p.total_lines, position := off } }

/-- Model of `PageDown` handling (main.rs lines 380-389): step the offset up
by 10, saturating at `total_lines`, and rebuild the scrollbar. -/
def TaskPreview.pageDown (p : TaskPreview) : TaskPreview :=
  let off :=
    if p.scroll_offset + 10 < p.total_lines then p.scroll_offset + 10
    else p.total_lines
  { p with scroll_offset := off
           scrollbar_state := { content_length := p.total_lines, position := off } }

/-- The key codes distinguished by the input handler; `other` stands for the
remaining crossterm `KeyCode` variants, all of which fall into the catch-all
arm of the source match. -/
inductive KeyCode where
  | char (c : Char)
  | esc
  | enter
  | up
  | down
  | left
  | right
  | pageUp
  | pageDown
  | other (n : Nat)
deriving DecidableEq, Repr

/-- What the loop does after handling one key: keep looping, return from
`run_app` (ending the dashboard), or panic inside `run_task`. -/
inductive LoopControl where
  | cont
  | exit
  | panicked
deriving DecidableEq, Repr

/-- Result of one step of the input handler: the new application state,
the loop control outcome, and whether a task subprocess spawn was attempted
during the step. -/
structure Step where
  app : App
  control : LoopControl
  spawned : Bool
deriving DecidableEq, Repr

/-- Model of the key-event match of `run_app` (main.rs lines 341-392).  The
tree-widget methods `key_down`/`key_up`/`key_left`/`key_right` are external
library calls on the tree state and are taken as parameters; `env` describes
the subprocess behaviour should a task be run during this step.  Character
keys are tested in source arm order (q, s, w, d, a); every other key code
falls into the catch-all arm, which leaves the state untouched. -/
def handleKey (keyDown keyUp keyLeft keyRight : TreeState → TreeState)
    (env : ExecEnv) (code : KeyCode) (app : App) : Step :=
  match code with
  | .char c =>
    if c = 'q' then { app := app, control := .exit, spawned := false }
    else if c = 's' then
      { app := { app with task_finder := { app.task_finder with
          file_tree_state := keyDown app.task_finder.file_tree_state } }
        control := .cont, spawned := false }
    else if c = 'w' then
      { app := { app with task_finder := { app.task_finder with
          file_tree_state := keyUp app.task_finder.file_tree_state } }
        control := .cont, spawned := false }
    else if c = 'd' then
      { app := { app with task_finder := { app.task_finder with
          file_tree_state := keyRight app.task_finder.file_tree_state } }
        control := .cont, spawned := false }
    else if c = 'a' then
      { app := { app with task_finder := { app.task_finder with
          file_tree_state := keyLeft app.task_finder.file_tree_state } }
        control := .cont, spawned := false }
    else { app := app, control := .cont, spawned := false }
  | .esc => { app := app, control := .exit, spawned := false }
  | .down =>
      { app := { app with task_finder := { app.task_finder with
          file_tree_state := keyDown app.task_finder.file_tree_state } }
        control := .cont, spawned := false }
  | .up =>
      { app := { app with task_finder := { app.task_finder with
          file_tree_state := keyUp app.task_finder.file_tree_state } }
        control := .cont, spawned := false }
  | .right =>
      { app := { app with task_finder := { app.task_finder with
          file_tree_state := keyRight app.task_finder.file_tree_state } }
        control := .cont, spawned := false }
  | .left =>
      { app := { app with task_finder := { app.task_finder with
          file_tree_state := keyLeft app.task_finder.file_tree_state } }
        control := .cont, spawned := false }
  | .enter =>
    if app.error_message.isSome then
      { app := { app with error_message := none }, control := .exit, spawned := false }
    else
      let file_path := joinPath app.task_finder.file_tree_state.selected
      if containsStr file_path "task" then
        let r := App.run_task env app
        match r.2 with
        | .panicked => { app := r.1, control := .panicked, spawned := true }
        | .err e =>
            { app := { r.1 with error_message := some ("Failed to run task: " ++ e) }
              control := .cont, spawned := true }
        | .ok => { app := r.1, control := .cont, spawned := true }
      else { app := app, control := .cont, spawned := false }
  | .pageUp =>
      { app := { app with task_preview := app.task_preview.pageUp }
        control := .cont, spawned := false }
  | .pageDown =>
      { app := { app with task_preview := app.task_preview.pageDown }
        control := .cont, spawned := false }
  | .other _ => { app := app, control := .cont, spawned := false }

/-- The keys recognized by the input handler: q/Esc, up/w, down/s, left/a,
right/d, enter, page-up, page-down. -/
def isRecognized : KeyCode → Bool
  | .char c => c = 'q' || c = 'w' || c = 's' || c = 'a' || c = 'd'
  | .esc => true
  | .enter => true
  | .up => true
  | .down => true
  | .left => true
  | .right => true
  | .pageUp => true
  | .pageDown => true
  | .other _ => false

/-- Concatenation of captured lines the way `App::run_task` renders them:
each line followed by a line break. -/
def renderedLines : List String → String
  | [] => ""
  | l :: ls => l ++ "\n" ++ renderedLines ls

/-- A sample application state with the task leaf `day1/task1` selected and
no error modal shown. -/
def appOnTask : App :=
  { task_finder :=
      { file_tree := [{ text := "day1", identifier := "day1",
                        children := [{ text := "task1", identifier := "task1" }] }]
        file_tree_state := { opened := [["day1"]], selected := ["day1", "task1"] } }
    task_preview := TaskPreview.new
    error_message := none }

/-- A sample application state with the day node `day1` selected. -/
def appOnDay : App :=
  { appOnTask with task_finder := { appOnTask.task_finder with
      file_tree_state := { opened := [["day1"]], selected := ["day1"] } } }

/-- A sample application state showing an error modal. -/
def appWithError : App :=
  { appOnTask with error_message := some "Failed to run task: boom" }

/-- A benign execution environment: spawn succeeds, one output line, clean
read, clean wait, exit code 0. -/
def envOk : ExecEnv :=
  { spawnOk := true, lines := ["hello"], readErr := none, waitErr := none,
    exitCode := 0 }

/-- An environment whose subprocess runs cleanly but exits with code 1. -/
def envExit1 : ExecEnv :=
  { spawnOk := true, lines := ["oops"], readErr := none, waitErr := none,
    exitCode := 1 }

/-- An environment whose subprocess fails to spawn. -/
def envSpawnFail : ExecEnv :=
  { spawnOk := false, lines := [], readErr := none, waitErr := none,
    exitCode := 0 }

/-- A raw-capture environment whose output is `hello` with no final break. -/
def rawEnvHello : RawExecEnv :=
  { spawnOk := true, text := "hello", readErr := none, waitErr := none,
    exitCode := 0 }

/-- A scroll key: page-up or page-down. -/
inductive PageKey where
  | up
  | down
deriving DecidableEq, Repr

/-- Apply one scroll key to the preview pane. -/
def applyPage : PageKey → TaskPreview → TaskPreview
  | .up, p => p.pageUp
  | .down, p => p.pageDown

/-- Apply a finite sequence of scroll keys to the preview pane. -/
def applyPages (ks : List PageKey) (p : TaskPreview) : TaskPreview :=
  ks.foldl (fun p k => applyPage k p) p

/-- The catalog loader of main.rs is the filter of the scan by
`is_dir` and `^day\d+$`, mapped to day nodes, in scan order. -/
theorem load_file_tree_eq (entries : List DirEntry) :
    App.load_file_tree entries
      = (entries.filter (fun e => e.isDir && matchesDayName e.name)).map dayItemFor := by
  have aux : ∀ (es : List DirEntry) (acc : List DayItem),
      es.foldl loadStep acc
        = acc ++ (es.filter (fun e => e.isDir && matchesDayName e.name)).map dayItemFor := by
    intro es
    induction es with
    | nil => intro acc; simp
    | cons e es ih =>
      intro acc
      rw [List.foldl_cons, List.filter_cons, ih]
      by_cases h : (e.isDir && matchesDayName e.name) = true
      · simp [loadStep, h]
      · simp only [Bool.not_eq_true] at h
        simp [loadStep, h]
  simpa [App.load_file_tree] using aux entries []

/-- Claim C1, counterexample: with a directory scan that yields `day10` before
`day9` (both valid day directories), `App::load_file_tree` — the loader that
`App::new` in main.rs actually calls — returns the node for `day10` before the
node for `day9`, even though `day9` has the smaller captured digit group.  The
claimed numeric sorting does not happen in this loader. -/
theorem claim_C1_counterexample :
    (App.load_file_tree
        [{ name := "day10", isDir := true, hasTask1 := true, hasTask2 := false },
         { name := "day9", isDir := true, hasTask1 := true, hasTask2 := false }]).map
        DayItem.identifier
      = ["day10", "day9"]
    ∧ dayNum "day9" < dayNum "day10" := by decide

/-- Claim C1, amended: the unused module loader `TaskFinder::load_file_tree`
(taskfinder.rs) does return the day nodes sorted in nondecreasing order of the
captured digit group, while `App::load_file_tree` (main.rs), the loader used
by the running dashboard, performs no sort and returns the matching
directories in directory-scan order. -/
theorem claim_C1_amended (entries : List DirEntry) :
    (TaskFinder.load_file_tree entries).Pairwise
        (fun a b => dayNum a.identifier ≤ dayNum b.identifier)
    ∧ (App.load_file_tree entries).map DayItem.identifier
        = (entries.filter (fun e => e.isDir && matchesDayName e.name)).map
            DirEntry.name := by
  constructor
  · have htrans : ∀ a b c : DirEntry,
        (decide (dayNum a.name ≤ dayNum b.name)) = true →
        (decide (dayNum b.name ≤ dayNum c.name)) = true →
        (decide (dayNum a.name ≤ dayNum c.name)) = true := by
      intro a b c hab hbc
      simp only [decide_eq_true_eq] at *
      omega
    have htotal : ∀ a b : DirEntry,
        ((decide (dayNum a.name ≤ dayNum b.name))
          || (decide (dayNum b.name ≤ dayNum a.name))) = true := by
      intro a b
      simp only [Bool.or_eq_true, decide_eq_true_eq]
      omega
    have hsorted :=
      List.sorted_mergeSort htrans htotal
        (entries.filter (fun e => e.isDir && matchesDayName e.name))
    unfold TaskFinder.load_file_tree
    rw [List.pairwise_map]
    exact hsorted.imp (fun h => by simpa [dayItemFor] using of_decide_eq_true h)
  · rw [load_file_tree_eq, List.map_map]
    rfl

/-- Claim C4, counterexample: a scanned directory `day1` that matches the day
pattern but contains neither a `task1` nor a `task2` child directory is not
skipped — the loader still returns a (childless) node for it, refuting the
claim that no node for such a directory appears in the returned sequence. -/
theorem claim_C4_counterexample :
    ¬ (∀ item ∈ App.load_file_tree
          [{ name := "day1", isDir := true, hasTask1 := false, hasTask2 := false }],
        item.identifier ≠ "day1") := by decide

/-- Claim C4, amended: a scanned top-level directory matching `day<digits>`
with neither a `task1` nor a `task2` child directory is still included in the
returned sequence, as a day node with an empty child list, and no error is
raised (the loader is total). -/
theorem claim_C4_amended (entries : List DirEntry) (e : DirEntry)
    (hmem : e ∈ entries) (hd : e.isDir = true) (hm : matchesDayName e.name = true)
    (h1 : e.hasTask1 = false) (h2 : e.hasTask2 = false) :
    { text := e.name, identifier := e.name, children := ([] : List TaskItem) }
      ∈ App.load_file_tree entries := by
  rw [load_file_tree_eq]
  refine List.mem_map.mpr ⟨e, List.mem_filter.mpr ⟨hmem, by simp [hd, hm]⟩, ?_⟩
  simp [dayItemFor, add_task_items, h1, h2]

/-- Claim C4, witness: the amended statement applied to a concrete scan in
which `day1` has no task children and sits among other entries. -/
theorem claim_C4_witness :
    { text := "day1", identifier := "day1", children := ([] : List TaskItem) }
      ∈ App.load_file_tree
          [{ name := "src", isDir := true, hasTask1 := false, hasTask2 := false },
           { name := "day1", isDir := true, hasTask1 := false, hasTask2 := false }] :=
  claim_C4_amended
    [{ name := "src", isDir := true, hasTask1 := false, hasTask2 := false },
     { name := "day1", isDir := true, hasTask1 := false, hasTask2 := false }]
    { name := "day1", isDir := true, hasTask1 := false, hasTask2 := false }
    (by decide) (by decide) (by decide) (by decide) (by decide)

/-- Claim C8: a scanned entry that is not a directory, or whose name fails the
anchored `^day\d+$` match, contributes no node to the returned sequence: given
that scan names are distinct (as they are for a real directory scan), no
returned node carries the identifier of such an entry. -/
theorem claim_C8_nonmatching_excluded (entries : List DirEntry) (e : DirEntry)
    (hnod : (entries.map DirEntry.name).Nodup)
    (hmem : e ∈ entries)
    (h : e.isDir = false ∨ matchesDayName e.name = false) :
    ∀ item ∈ App.load_file_tree entries, item.identifier ≠ e.name := by
  intro item hitem heq
  rw [load_file_tree_eq] at hitem
  obtain ⟨e2, he2, rfl⟩ := List.mem_map.mp hitem
  obtain ⟨he2mem, hpass⟩ := List.mem_filter.mp he2
  have hname : e2.name = e.name := heq
  have he2e : e2 = e := List.inj_on_of_nodup_map hnod he2mem hmem hname
  subst he2e
  rcases h with h | h <;> simp [h] at hpass

/-- Claim C8, witness: on a concrete scan containing a file named `day3`, a
non-matching directory `notaday`, and a valid `day2`, no returned node is
identified as `notaday`. -/
theorem claim_C8_witness :
    ({ text := "day2", identifier := "day2",
       children := [{ text := "task1", identifier := "task1" }] } : DayItem).identifier
      ≠ "notaday" :=
  claim_C8_nonmatching_excluded
    [{ name := "notaday", isDir := true, hasTask1 := true, hasTask2 := true },
     { name := "day2", isDir := true, hasTask1 := true, hasTask2 := false }]
    { name := "notaday", isDir := true, hasTask1 := true, hasTask2 := true }
    (by decide) (by decide) (Or.inr (by decide))
    { text := "day2", identifier := "day2",
      children := [{ text := "task1", identifier := "task1" }] }
    (by decide)

/-- One scroll key never changes the line count of the preview. -/
theorem applyPage_total_lines (k : PageKey) (p : TaskPreview) :
    (applyPage k p).total_lines = p.total_lines := by
  cases k <;> simp [applyPage, TaskPreview.pageUp, TaskPreview.pageDown]

/-- One scroll key keeps the offset within bounds and moves it by at most the
fixed step of 10 lines. -/
theorem applyPage_step (k : PageKey) (p : TaskPreview)
    (h : p.scroll_offset ≤ p.total_lines) :
    (applyPage k p).scroll_offset ≤ (applyPage k p).total_lines
    ∧ (applyPage k p).scroll_offset - p.scroll_offset ≤ 10
    ∧ p.scroll_offset - (applyPage k p).scroll_offset ≤ 10 := by
  cases k <;>
    simp only [applyPage, TaskPreview.pageUp, TaskPreview.pageDown] <;>
    split <;> simp <;> omega

/-- Any finite sequence of scroll keys keeps the offset within bounds. -/
theorem applyPages_bounds (ks : List PageKey) :
    ∀ p : TaskPreview, p.scroll_offset ≤ p.total_lines →
      (applyPages ks p).scroll_offset ≤ (applyPages ks p).total_lines := by
  induction ks with
  | nil => intro p h; simpa [applyPages] using h
  | cons k ks ih =>
    intro p h
    have hstep := (applyPage_step k p h).1
    exact ih (applyPage k p) hstep

/-- Claim C5: starting from any preview state whose scroll offset lies in
`[0, total_lines]`, every finite sequence of page-up/page-down key events
keeps the offset in `[0, total_lines]`, and each single page-up/page-down
changes the offset by at most the fixed step of 10 lines while staying in
bounds (offsets are natural numbers, so 0 is never underflowed). -/
theorem claim_C5_scroll_bounds (p : TaskPreview) (ks : List PageKey)
    (h : p.scroll_offset ≤ p.total_lines) :
    ((applyPages ks p).scroll_offset ≤ (applyPages ks p).total_lines)
    ∧ (∀ (q : TaskPreview) (k : PageKey), q.scroll_offset ≤ q.total_lines →
        (applyPage k q).scroll_offset ≤ (applyPage k q).total_lines
        ∧ (applyPage k q).scroll_offset - q.scroll_offset ≤ 10
        ∧ q.scroll_offset - (applyPage k q).scroll_offset ≤ 10) :=
  ⟨applyPages_bounds ks p h, fun q k hq => applyPage_step k q hq⟩

/-- Claim C5, witness: the bound instantiated on a fresh preview pane and a
concrete sequence of page keys. -/
theorem claim_C5_witness :
    (applyPages [PageKey.down, PageKey.down, PageKey.up] TaskPreview.new).scroll_offset
      ≤ (applyPages [PageKey.down, PageKey.down, PageKey.up] TaskPreview.new).total_lines :=
  (claim_C5_scroll_bounds TaskPreview.new [PageKey.down, PageKey.down, PageKey.up]
    (by decide)).1

/-- Folding captured lines into the preview appends each line followed by a
line break, leaves the offset alone, and counts one line per append. -/
theorem foldl_appendLine (lines : List String) :
    ∀ p : TaskPreview,
      (lines.foldl appendLine p).file_preview = p.file_preview ++ renderedLines lines
      ∧ (lines.foldl appendLine p).scroll_offset = p.scroll_offset
      ∧ (lines.foldl appendLine p).total_lines = p.total_lines + lines.length := by
  induction lines with
  | nil => intro p; simp [renderedLines]
  | cons l ls ih =>
    intro p
    obtain ⟨h1, h2, h3⟩ := ih (appendLine p l)
    refine ⟨?_, ?_, ?_⟩
    · rw [List.foldl_cons, h1]
      simp [appendLine, renderedLines, String.append_assoc]
    · rw [List.foldl_cons, h2]; rfl
    · rw [List.foldl_cons, h3]
      simp [appendLine]
      omega

/-- Claim C6: on every invocation, `App::run_task` clears the previous preview
text, scroll offset and line count before appending new output, so the
resulting preview text is exactly the newly captured lines (each followed by a
line break), the offset is 0 and the count is the number of new lines — no
content of an earlier run remains, whatever the previous state was.  If the
spawn fails, the preview is left in its cleared state. -/
theorem claim_C6_reset (env : ExecEnv) (app : App) :
    ((App.run_task env app).1.task_preview.file_preview
        = renderedLines (if env.spawnOk then env.lines else []))
    ∧ (App.run_task env app).1.task_preview.scroll_offset = 0
    ∧ (App.run_task env app).1.task_preview.total_lines
        = (if env.spawnOk then env.lines.length else 0) := by
  unfold App.run_task
  cases hs : env.spawnOk with
  | false => simp [renderedLines]
  | true =>
    obtain ⟨h1, h2, h3⟩ := foldl_appendLine env.lines
      { app.task_preview with file_preview := "", scroll_offset := 0, total_lines := 0 }
    cases env.readErr with
    | some e => simp_all
    | none => cases env.waitErr with
      | some e => simp_all
      | none => simp_all

/-- Claim C2, counterexample: a subprocess that runs cleanly but exits with
the non-zero code 1 is treated as success — `run_task` returns `Ok` and no
error message is set, so no modal appears; and a spawn failure does not set an
error message either: it panics, crashing the dashboard (the `.expect` call in
main.rs line 209). -/
theorem claim_C2_counterexample :
    ((App.run_task envExit1 appOnTask).1.error_message = none
      ∧ (App.run_task envExit1 appOnTask).2 = RunOutcome.ok)
    ∧ ((handleKey id id id id envSpawnFail KeyCode.enter appOnTask).control
          = LoopControl.panicked
      ∧ (handleKey id id id id envSpawnFail KeyCode.enter appOnTask).app.error_message
          = none) := by decide

/-- Claim C2, amended: a spawn failure panics (crashing the dashboard); a
subprocess whose stdout is read cleanly and whose `wait()` returns a status —
any exit code, zero or not — is treated as success with no error message set;
only an OS-level error returned by `wait()` (or by reading stdout, which
propagates to the same modal in `run_app`) surfaces via `error_message`. -/
theorem claim_C2_amended (env : ExecEnv) (app : App) :
    (env.spawnOk = false → (App.run_task env app).2 = RunOutcome.panicked)
    ∧ (env.spawnOk = true → env.readErr = none → env.waitErr = none →
        (App.run_task env app).2 = RunOutcome.ok
        ∧ (App.run_task env app).1.error_message = app.error_message)
    ∧ (∀ e, env.spawnOk = true → env.readErr = none → env.waitErr = some e →
        (App.run_task env app).1.error_message = some ("Failed to run task: " ++ e)
        ∧ (App.run_task env app).2 = RunOutcome.err e) := by
  refine ⟨fun hs => ?_, fun hs hr hw => ?_, fun e hs hr hw => ?_⟩
  · simp [App.run_task, hs]
  · simp [App.run_task, hs, hr, hw]
  · simp [App.run_task, hs, hr, hw]

/-- Claim C2, witness: the amended statement applied to the spawn-failure
environment. -/
theorem claim_C2_witness :
    (App.run_task envSpawnFail appOnTask).2 = RunOutcome.panicked :=
  (claim_C2_amended envSpawnFail appOnTask).1 rfl

/-- Claim C3, code evaluation at the failing input: with an error modal shown,
the enter key clears the message but makes `run_app` return, terminating the
dashboard, instead of returning control to the task-list loop as the claim
(and the modal text `Press Enter to close`) promises. -/
theorem claim_C3_code_eval :
    (handleKey id id id id envOk KeyCode.enter appWithError).control = LoopControl.exit
    ∧ (handleKey id id id id envOk KeyCode.enter appWithError).app.error_message = none
    ∧ (handleKey id id id id envOk KeyCode.enter appWithError).spawned = false := by
  decide

/-- Claim C7, counterexample: captured output `hello` (no final line break) is
stored verbatim by `TaskPreview::run_task`, but `total_lines` is set to 1
while the stored text contains zero line-break characters, refuting the claim
that `total_lines` equals the number of line-break characters stored. -/
theorem claim_C7_counterexample :
    ((TaskPreview.run_task rawEnvHello TaskPreview.new).1.file_preview = "hello")
    ∧ ¬ ((TaskPreview.run_task rawEnvHello TaskPreview.new).1.total_lines
          = newlineCount
              (TaskPreview.run_task rawEnvHello TaskPreview.new).1.file_preview) := by
  decide

/-- Claim C7, amended: for every successfully captured subprocess output, the
preview pane stores the decoded text verbatim and sets `total_lines` to the
number of lines of that text in the sense of `str::lines().count()` — one per
line-break character plus one for a final fragment not ending in a line break
(these agree exactly when the text is empty or ends with a line break). -/
theorem claim_C7_amended (env : RawExecEnv) (p : TaskPreview)
    (hs : env.spawnOk = true) (hr : env.readErr = none) :
    ((TaskPreview.run_task env p).1.file_preview = env.text)
    ∧ (TaskPreview.run_task env p).1.total_lines = countLines env.text := by
  cases hw : env.waitErr <;> simp [TaskPreview.run_task, hs, hr, hw]

/-- Claim C7, witness: the amended statement applied to the concrete capture
`hello`. -/
theorem claim_C7_witness :
    ((TaskPreview.run_task rawEnvHello TaskPreview.new).1.file_preview
        = rawEnvHello.text)
    ∧ (TaskPreview.run_task rawEnvHello TaskPreview.new).1.total_lines
        = countLines rawEnvHello.text :=
  claim_C7_amended rawEnvHello TaskPreview.new rfl rfl

/-- A pattern starting with a character absent from the text never occurs as a
substring of the text. -/
theorem subStrL_eq_false (a : Char) (ps l : List Char) (h : ∀ c ∈ l, ¬ c = a) :
    subStrL (a :: ps) l = false := by
  induction l with
  | nil => rfl
  | cons c cs ih =>
    have hca : (a == c) = false := by
      have hc := h c (List.mem_cons_self c cs)
      simp only [beq_eq_false_iff_ne, ne_eq]
      exact fun hac => hc hac.symm
    simp only [subStrL, isPrefixL, hca, Bool.false_and, Bool.false_or]
    exact ih (fun c hc => h c (List.mem_cons_of_mem _ hc))

/-- A name matching `^day\d+$` contains no letter `t`. -/
theorem matchesDayL_no_t (l : List Char) (h : matchesDayL l = true) :
    ∀ c ∈ l, ¬ c = 't' := by
  rcases l with _ | ⟨c1, _ | ⟨c2, _ | ⟨c3, rest⟩⟩⟩
  · simp [matchesDayL] at h
  · simp [matchesDayL] at h
  · simp [matchesDayL] at h
  · simp only [matchesDayL, Bool.and_eq_true, beq_iff_eq] at h
    obtain ⟨⟨⟨⟨h1, h2⟩, h3⟩, h4⟩, h5⟩ := h
    subst h1; subst h2; subst h3
    intro c hc
    simp only [List.mem_cons] at hc
    rcases hc with rfl | rfl | rfl | hc
    · decide
    · decide
    · decide
    · have hd : c.isDigit = true := List.all_eq_true.mp h5 c hc
      intro hct
      subst hct
      exact absurd hd (by decide)

/-- A day-level identifier (matching `^day\d+$`) does not contain the
substring `task`. -/
theorem containsStr_task_eq_false_of_day (s : String) (h : matchesDayName s = true) :
    containsStr s "task" = false := by
  unfold containsStr
  have hdata : ("task").data = ['t', 'a', 's', 'k'] := rfl
  rw [hdata]
  exact subStrL_eq_false 't' ['a', 's', 'k'] s.data (matchesDayL_no_t s.data h)

/-- Claim C9: with no error modal shown, the enter key attempts a subprocess
spawn exactly when the joined identifier path of the selected node contains
the substring `task`; when it does not — in particular on a day-level node
(whose identifier matches `^day\d+$`) or with nothing selected — the handler
runs nothing and leaves the entire application state (preview included)
unchanged. -/
theorem claim_C9_enter_spawns_only_tasks
    (kd ku kl kr : TreeState → TreeState) (env : ExecEnv) (app : App)
    (h : app.error_message = none) :
    ((handleKey kd ku kl kr env KeyCode.enter app).spawned
        = containsStr (joinPath app.task_finder.file_tree_state.selected) "task")
    ∧ (containsStr (joinPath app.task_finder.file_tree_state.selected) "task" = false →
        handleKey kd ku kl kr env KeyCode.enter app
          = { app := app, control := LoopControl.cont, spawned := false })
    ∧ (∀ name, app.task_finder.file_tree_state.selected = [name] →
        matchesDayName name = true →
        handleKey kd ku kl kr env KeyCode.enter app
          = { app := app, control := LoopControl.cont, spawned := false })
    ∧ (app.task_finder.file_tree_state.selected = [] →
        handleKey kd ku kl kr env KeyCode.enter app
          = { app := app, control := LoopControl.cont, spawned := false }) := by
  have hiss : app.error_message.isSome = false := by simp [h]
  refine ⟨?_, ?_, ?_, ?_⟩
  · cases hcon : containsStr (joinPath app.task_finder.file_tree_state.selected) "task"
    · simp [handleKey, hiss, hcon]
    · cases hr2 : (App.run_task env app).2 <;> simp [handleKey, hiss, hcon, hr2]
  · intro hcon
    simp [handleKey, hiss, hcon]
  · intro name hsel hm
    have hcon : containsStr (joinPath app.task_finder.file_tree_state.selected) "task"
        = false := by
      rw [hsel]
      simpa [joinPath] using containsStr_task_eq_false_of_day name hm
    simp [handleKey, hiss, hcon]
  · intro hsel
    have hcon : containsStr (joinPath app.task_finder.file_tree_state.selected) "task"
        = false := by
      rw [hsel]; decide
    simp [handleKey, hiss, hcon]

/-- Claim C9, witness: on the sample state with the day node `day1` selected
and no modal shown, enter spawns exactly when the joined path contains `task`
(here it does not). -/
theorem claim_C9_witness :
    (handleKey id id id id envOk KeyCode.enter appOnDay).spawned
      = containsStr (joinPath appOnDay.task_finder.file_tree_state.selected) "task" :=
  (claim_C9_enter_spawns_only_tasks id id id id envOk appOnDay rfl).1

/-- Claim C10: a key event other than the recognized inputs (q/Esc, up/w,
down/s, left/a, right/d, enter, page-up, page-down) falls into the catch-all
arm of the input match and leaves the entire application state — tree
selection and expansion, preview text, scroll offset, line count and error
message — unchanged, with the loop continuing and no subprocess spawn. -/
theorem claim_C10_unrecognized_key_no_effect
    (kd ku kl kr : TreeState → TreeState) (env : ExecEnv)
    (code : KeyCode) (app : App) (h : isRecognized code = false) :
    handleKey kd ku kl kr env code app
      = { app := app, control := LoopControl.cont, spawned := false } := by
  cases code with
  | char c =>
    simp only [isRecognized, Bool.or_eq_false_iff, decide_eq_false_iff_not] at h
    obtain ⟨⟨⟨⟨hq, hw⟩, hs⟩, ha⟩, hd⟩ := h
    simp [handleKey, hq, hw, hs, ha, hd]
  | esc => simp [isRecognized] at h
  | enter => simp [isRecognized] at h
  | up => simp [isRecognized] at h
  | down => simp [isRecognized] at h
  | left => simp [isRecognized] at h
  | right => simp [isRecognized] at h
  | pageUp => simp [isRecognized] at h
  | pageDown => simp [isRecognized] at h
  | other n => rfl

/-- Claim C10, witness: the unrecognized character key `x` leaves the sample
application state untouched. -/
theorem claim_C10_witness :
    handleKey id id id id envOk (KeyCode.char 'x') appOnTask
      = { app := appOnTask, control := LoopControl.cont, spawned := false } :=
  claim_C10_unrecognized_key_no_effect id id id id envOk (KeyCode.char 'x') appOnTask
    (by decide)
